import Mathlib

/-!
Shallow embedding of the DeeJay latency-compensation core
(src/TimeStretchPitchProcessor.{h,cpp}, src/LatencyCompensatedProcessor.{h,cpp}).

Modelling conventions:
* `float` / `double` values (audio samples, tempo/pitch parameters) are
  modelled as `ℚ`; no floating-point arithmetic is performed on them by the
  code under study (samples are only copied or zero-filled, parameters only
  stored and forwarded), so exact rationals are faithful.
* `size_t` counters are modelled as `Nat`.  Every `size_t` operation in this
  core (`min`, a subtraction guarded by that `min`, additions and the buffer
  size product `produced * channelCount`) stays inside the `size_t` range for
  any buffer that can exist in memory, so no modular reduction is needed.
* `int` fields (`channelCount_`, `manualLatencySamples`) are modelled as
  `Int`; `static_cast<size_t>` on them is the two-complement reduction
  `csize` below, and `static_cast<size_t>(std::max(0, x))` is `Int.toNat`
  of `max 0 x`.
* The inner stretch/pitch engine is consumed by `LatencyCompensatedProcessor`
  only through `setParameters`, `getLatencySamples` and `process`.  The spec
  treats the engine as an external collaborator, and the source selects at
  compile time between a real engine (external library, not part of this
  repository) and the passthrough variant.  We therefore model the engine
  interface as a record of operations `EngineOps` over an abstract state
  type, and instantiate it with the passthrough variant
  (`TimeStretchPitchProcessor` compiled without `DEEJAY_HAVE_RUBBERBAND`),
  which is the complete engine implementation present in the source.
-/

namespace deejay

/-- Two-complement reduction of a C `int` read through
`static_cast<size_t>`: nonnegative values map to themselves, negative values
wrap modulo 2 to the 64. -/
def csize (i : Int) : Nat :=
  (i % (2 : Int) ^ 64).toNat

/-- StretchQuality from TimeStretchPitchProcessor.h, with the member
initializers 0.5f, 0.5f, true. -/
structure StretchQuality where
  formantPreservation : ℚ := 1 / 2
  transientSensitivity : ℚ := 1 / 2
  highQuality : Bool := true
deriving Repr, DecidableEq

/-- Parameters from TimeStretchPitchProcessor.h. -/
structure Parameters where
  tempoRatio : ℚ := 1
  pitchSemitones : ℚ := 0
  quality : StretchQuality := {}
deriving Repr, DecidableEq

/-- EndpointDescriptor from TimeStretchPitchProcessor.h. -/
structure EndpointDescriptor where
  id : String
  label : String
  minimum : ℚ := 0
  maximum : ℚ := 0
  defaultValue : ℚ := 0
  integer : Bool := false
  description : String
deriving Repr, DecidableEq

/-- The placeholder latency of the passthrough build:
`static_cast<size_t>(sampleRate_ * 0.01)` (10 ms worth of frames).  The
double product `sampleRate * 0.01` is modelled exactly as the rational
`sampleRate / 100` (exact at the sample rates the spec considers, e.g.
48000 * 0.01 = 480 holds exactly in double arithmetic as well); the
`size_t` cast truncates, i.e. takes the floor for nonnegative rates. -/
def simulatedLatency (sampleRate : ℚ) : Nat :=
  (sampleRate / 100).floor.toNat

/-- TimeStretchPitchProcessor compiled without DEEJAY_HAVE_RUBBERBAND:
the passthrough variant.  `simulatedLatencySamples` is the field
`simulatedLatencySamples_`. -/
structure TimeStretchPitchProcessor where
  sampleRate : ℚ
  channelCount : Int
  parameters : Parameters
  simulatedLatencySamples : Nat
deriving Repr, DecidableEq

/-- The constructor `TimeStretchPitchProcessor(sampleRate, channelCount,
defaults)`: stores the three arguments and runs `configureProcessor()`,
which in the passthrough build sets `simulatedLatencySamples_`.  No
argument validation is performed by the source. -/
def TimeStretchPitchProcessor.create (sampleRate : ℚ) (channelCount : Int)
    (defaults : Parameters) : TimeStretchPitchProcessor :=
  { sampleRate := sampleRate
    channelCount := channelCount
    parameters := defaults
    simulatedLatencySamples := simulatedLatency sampleRate }

/-- `setParameters` in the passthrough build: stores the parameters and
refreshes the placeholder latency. -/
def TimeStretchPitchProcessor.setParameters (p : TimeStretchPitchProcessor)
    (parameters : Parameters) : TimeStretchPitchProcessor :=
  { p with
    parameters := parameters
    simulatedLatencySamples := simulatedLatency p.sampleRate }

/-- `getParameters`: returns the stored parameters. -/
def TimeStretchPitchProcessor.getParameters (p : TimeStretchPitchProcessor) :
    Parameters :=
  p.parameters

/-- `getLatencySamples` in the passthrough build. -/
def TimeStretchPitchProcessor.getLatencySamples
    (p : TimeStretchPitchProcessor) : Nat :=
  p.simulatedLatencySamples

/-- `process` in the passthrough build: `samples = frames * channelCount`;
the output is assigned the first `samples` entries of the input buffer and
the return value is `frames`.  The input buffer is modelled as the list of
samples it holds. -/
def TimeStretchPitchProcessor.process (p : TimeStretchPitchProcessor)
    (input : List ℚ) (frames : Nat) : Nat × List ℚ :=
  (frames, input.take (frames * csize p.channelCount))

/-- `describeEndpoints`: the four descriptors, each defaultValue read from
the currently stored parameters. -/
def TimeStretchPitchProcessor.describeEndpoints
    (p : TimeStretchPitchProcessor) : List EndpointDescriptor :=
  [ { id := "tempo", label := "Tempo Ratio", minimum := 1 / 2,
      maximum := 5 / 2, defaultValue := p.parameters.tempoRatio,
      integer := false,
      description := "Time-stretch control exposed to slider and numeric input." },
    { id := "pitch", label := "Pitch (semitones)", minimum := -12,
      maximum := 12, defaultValue := p.parameters.pitchSemitones,
      integer := false,
      description := "Pitch shift in semitones, mapped to rotary or numeric control." },
    { id := "formant", label := "Formant Preservation", minimum := 0,
      maximum := 1, defaultValue := p.parameters.quality.formantPreservation,
      integer := false,
      description := "Blend between neutral and formant-preserving processing." },
    { id := "transient", label := "Transient Sensitivity", minimum := 0,
      maximum := 1, defaultValue := p.parameters.quality.transientSensitivity,
      integer := false,
      description := "Higher values keep percussive edges sharper." } ]

/-- The interface through which LatencyCompensatedProcessor uses its inner
processor, over an abstract engine state.  `process` returns the produced
frame count, the produced interleaved samples, and the successor engine
state. -/
structure EngineOps (σ : Type) where
  setParameters : σ → Parameters → σ
  getLatencySamples : σ → Nat
  process : σ → List ℚ → Nat → Nat × List ℚ × σ

/-- The passthrough engine of the source, packaged as EngineOps.  Its
`process` does not mutate the engine state. -/
def passthroughOps : EngineOps TimeStretchPitchProcessor where
  setParameters := TimeStretchPitchProcessor.setParameters
  getLatencySamples := TimeStretchPitchProcessor.getLatencySamples
  process := fun p input frames =>
    ((TimeStretchPitchProcessor.process p input frames).1,
     (TimeStretchPitchProcessor.process p input frames).2, p)

/-- Controls from LatencyCompensatedProcessor.h. -/
structure Controls where
  tempoRatio : ℚ := 1
  pitchSemitones : ℚ := 0
  manualLatencySamples : Int := 0
deriving Repr, DecidableEq

/-- ControlEndpoint from LatencyCompensatedProcessor.h. -/
structure ControlEndpoint where
  id : String
  label : String
  type : String
  minimum : ℚ
  maximum : ℚ
  defaultValue : ℚ
  description : String
deriving Repr, DecidableEq

/-- LatencyCompensatedProcessor state, generic over the inner engine state
type σ.  Fields mirror processor_, controls_, pendingLatencySamples_ and
channelCount_. -/
structure LatencyCompensatedProcessor (σ : Type) where
  processor : σ
  controls : Controls
  pendingLatencySamples : Nat
  channelCount : Int
deriving Repr, DecidableEq

/-- `totalLatencySamples()`: engine latency plus
`static_cast<size_t>(std::max(0, manualLatencySamples))`. -/
def LatencyCompensatedProcessor.totalLatencySamples {σ : Type}
    (E : EngineOps σ) (p : LatencyCompensatedProcessor σ) : Nat :=
  E.getLatencySamples p.processor + (max 0 p.controls.manualLatencySamples).toNat

/-- `refreshPendingLatency()`: `pendingLatencySamples_ = totalLatencySamples()`. -/
def LatencyCompensatedProcessor.refreshPendingLatency {σ : Type}
    (E : EngineOps σ) (p : LatencyCompensatedProcessor σ) :
    LatencyCompensatedProcessor σ :=
  { p with
    pendingLatencySamples := LatencyCompensatedProcessor.totalLatencySamples E p }

/-- The constructor `LatencyCompensatedProcessor(sampleRate, channelCount)`:
builds the inner passthrough processor with default parameters, default
controls, pending counter member-initialized to 0, then runs
`refreshPendingLatency()`.  No argument validation is performed by the
source. -/
def LatencyCompensatedProcessor.create (sampleRate : ℚ) (channelCount : Int) :
    LatencyCompensatedProcessor TimeStretchPitchProcessor :=
  LatencyCompensatedProcessor.refreshPendingLatency passthroughOps
    { processor := TimeStretchPitchProcessor.create sampleRate channelCount {}
      controls := {}
      pendingLatencySamples := 0
      channelCount := channelCount }

/-- `updateControls(controls)`: store the controls, forward tempo and pitch
with a value-initialized (default) quality to the inner processor, then
`refreshPendingLatency()`. -/
def LatencyCompensatedProcessor.updateControls {σ : Type} (E : EngineOps σ)
    (p : LatencyCompensatedProcessor σ) (controls : Controls) :
    LatencyCompensatedProcessor σ :=
  LatencyCompensatedProcessor.refreshPendingLatency E
    { p with
      controls := controls
      processor := E.setParameters p.processor
        { tempoRatio := controls.tempoRatio
          pitchSemitones := controls.pitchSemitones
          quality := {} } }

/-- `currentControls()`. -/
def LatencyCompensatedProcessor.currentControls {σ : Type}
    (p : LatencyCompensatedProcessor σ) : Controls :=
  p.controls

/-- `processBlock(input, frames, output)`: run the inner processor, clear
the output (the model builds a fresh list), prepend
`min(pendingLatencySamples_, produced * channelCount)` zero samples and
subtract them from the pending counter when positive, append the produced
samples, and if the pending counter is still positive append that many
trailing zeros and zero the counter.  Returns `produced`, the output
buffer and the successor state. -/
def LatencyCompensatedProcessor.processBlock {σ : Type} (E : EngineOps σ)
    (p : LatencyCompensatedProcessor σ) (input : List ℚ) (frames : Nat) :
    Nat × List ℚ × LatencyCompensatedProcessor σ :=
  let r := E.process p.processor input frames
  let samplesPerFrame := csize p.channelCount
  let pendingSamples := min p.pendingLatencySamples (r.1 * samplesPerFrame)
  let afterTake :=
    if 0 < pendingSamples then
      (List.replicate pendingSamples (0 : ℚ),
       p.pendingLatencySamples - pendingSamples)
    else ([], p.pendingLatencySamples)
  let outputMid := afterTake.1 ++ r.2.1
  let final :=
    if 0 < afterTake.2 then
      (outputMid ++ List.replicate afterTake.2 (0 : ℚ), 0)
    else (outputMid, afterTake.2)
  (r.1, final.1,
   { p with processor := r.2.2, pendingLatencySamples := final.2 })

/-- `controlEndpoints()`: the three descriptors, each defaultValue read
from the currently stored controls (the manual latency entry casts the
`int` to `double`). -/
def LatencyCompensatedProcessor.controlEndpoints {σ : Type}
    (p : LatencyCompensatedProcessor σ) : List ControlEndpoint :=
  [ { id := "tempo", label := "Tempo", type := "slider", minimum := 1 / 2,
      maximum := 5 / 2, defaultValue := p.controls.tempoRatio,
      description := "User-facing tempo slider bound to time-stretch ratio." },
    { id := "pitch", label := "Pitch", type := "slider", minimum := -12,
      maximum := 12, defaultValue := p.controls.pitchSemitones,
      description := "Pitch slider or numeric input in semitones." },
    { id := "manualLatency", label := "Manual Latency", type := "numeric",
      minimum := 0, maximum := 4096,
      defaultValue := (p.controls.manualLatencySamples : ℚ),
      description := "Additional latency compensation in samples, editable via numeric input." } ]

/-- Iterated `processBlock` over a list of (input, frames) blocks: returns
the list of (produced, output) results and the final state. -/
def LatencyCompensatedProcessor.processBlocks {σ : Type} (E : EngineOps σ)
    (p : LatencyCompensatedProcessor σ) :
    List (List ℚ × Nat) → List (Nat × List ℚ) × LatencyCompensatedProcessor σ
  | [] => ([], p)
  | b :: rest =>
    let r := LatencyCompensatedProcessor.processBlock E p b.1 b.2
    let tail := LatencyCompensatedProcessor.processBlocks E r.2.2 rest
    ((r.1, r.2.1) :: tail.1, tail.2)

/-- The number of zero samples a single `processBlock` call injects into
its output: the length of the returned output buffer minus the length of
the sample data the inner processor produced for that call. -/
def LatencyCompensatedProcessor.injectedZeros {σ : Type} (E : EngineOps σ)
    (p : LatencyCompensatedProcessor σ) (input : List ℚ) (frames : Nat) :
    Nat :=
  (LatencyCompensatedProcessor.processBlock E p input frames).2.1.length -
    (E.process p.processor input frames).2.1.length

/-- The per-call injected-zero counts along a sequence of `processBlock`
calls. -/
def LatencyCompensatedProcessor.injectedZerosList {σ : Type}
    (E : EngineOps σ) (p : LatencyCompensatedProcessor σ) :
    List (List ℚ × Nat) → List Nat
  | [] => []
  | b :: rest =>
    LatencyCompensatedProcessor.injectedZeros E p b.1 b.2 ::
      LatencyCompensatedProcessor.injectedZerosList E
        (LatencyCompensatedProcessor.processBlock E p b.1 b.2).2.2 rest

/-- A fixed engine over a unit state, reporting latency 256 frames and
producing, stereo-interleaved, exactly the frames it is given; used to
exhibit a concrete instance of the engine-latency-256 scenario. -/
def fixedLatencyEngine : EngineOps Unit where
  setParameters := fun s _ => s
  getLatencySamples := fun _ => 256
  process := fun s input frames => (frames, input.take (frames * 2), s)

/-! ## Theorems -/

/-- Closed form of one `processBlock` call: the output is the capped zero
lead, then the produced samples, then the flush of whatever pending
latency the cap did not absorb, and the pending counter ends at zero. -/
theorem processBlock_eq {σ : Type} (E : EngineOps σ)
    (p : LatencyCompensatedProcessor σ) (input : List ℚ) (frames : Nat) :
    LatencyCompensatedProcessor.processBlock E p input frames =
      ((E.process p.processor input frames).1,
       List.replicate
           (min p.pendingLatencySamples
             ((E.process p.processor input frames).1 * csize p.channelCount)) (0 : ℚ) ++
         (E.process p.processor input frames).2.1 ++
         List.replicate
           (p.pendingLatencySamples -
             min p.pendingLatencySamples
               ((E.process p.processor input frames).1 * csize p.channelCount)) (0 : ℚ),
       { p with processor := (E.process p.processor input frames).2.2,
                pendingLatencySamples := 0 }) := by
  simp only [LatencyCompensatedProcessor.processBlock]
  split_ifs with h1 h2 h3
  · simp [List.append_assoc]
  · have hz : p.pendingLatencySamples -
        min p.pendingLatencySamples
          ((E.process p.processor input frames).1 * csize p.channelCount) = 0 :=
      Nat.eq_zero_of_not_pos h2
    simp [hz]
  · have hz : min p.pendingLatencySamples
        ((E.process p.processor input frames).1 * csize p.channelCount) = 0 :=
      Nat.eq_zero_of_not_pos h1
    simp [hz]
  · have hz : min p.pendingLatencySamples
        ((E.process p.processor input frames).1 * csize p.channelCount) = 0 :=
      Nat.eq_zero_of_not_pos h1
    have hz2 : p.pendingLatencySamples = 0 := Nat.eq_zero_of_not_pos h3
    simp [hz, hz2]

/-- Evaluation of the placeholder latency at 48 kHz. -/
theorem simulatedLatency_48000 : simulatedLatency 48000 = 480 := by
  unfold simulatedLatency
  norm_num [Rat.floor_def']
  decide

/-- Evaluation of the placeholder latency at sample rate zero. -/
theorem simulatedLatency_zero : simulatedLatency 0 = 0 := by
  unfold simulatedLatency
  norm_num [Rat.floor_def']

/-- One `processBlock` call injects exactly the pending latency it started
with as zero samples. -/
theorem injectedZeros_eq {σ : Type} (E : EngineOps σ)
    (p : LatencyCompensatedProcessor σ) (input : List ℚ) (frames : Nat) :
    LatencyCompensatedProcessor.injectedZeros E p input frames =
      p.pendingLatencySamples := by
  unfold LatencyCompensatedProcessor.injectedZeros
  rw [processBlock_eq]
  simp only [List.length_append, List.length_replicate]
  omega

/-- A state whose pending counter is zero injects no padding on any later
sequence of blocks. -/
theorem injectedZerosList_of_drained {σ : Type} (E : EngineOps σ) :
    ∀ (bs : List (List ℚ × Nat)) (p : LatencyCompensatedProcessor σ),
      p.pendingLatencySamples = 0 →
      LatencyCompensatedProcessor.injectedZerosList E p bs =
        List.replicate bs.length 0
  | [], _, _ => rfl
  | b :: bs, p, h => by
    unfold LatencyCompensatedProcessor.injectedZerosList
    rw [injectedZeros_eq, h,
      injectedZerosList_of_drained E bs _ (by rw [processBlock_eq])]
    simp [List.replicate_succ]

/-- C1: totalLatencySamples is the engine-reported latency plus
max(0, manualLatencySamples), and immediately after any updateControls
call, and immediately after construction, the pending counter equals
exactly this value (an absolute reset, whatever the previous pending
value was). -/
theorem totalLatency_and_pending_reset {σ : Type} (E : EngineOps σ)
    (p : LatencyCompensatedProcessor σ) (c : Controls) (sampleRate : ℚ)
    (channelCount : Int) :
    LatencyCompensatedProcessor.totalLatencySamples E p =
        E.getLatencySamples p.processor +
          (max 0 p.controls.manualLatencySamples).toNat ∧
    (LatencyCompensatedProcessor.updateControls E p c).pendingLatencySamples =
        LatencyCompensatedProcessor.totalLatencySamples E
          (LatencyCompensatedProcessor.updateControls E p c) ∧
    (LatencyCompensatedProcessor.create sampleRate channelCount).pendingLatencySamples =
        LatencyCompensatedProcessor.totalLatencySamples passthroughOps
          (LatencyCompensatedProcessor.create sampleRate channelCount) :=
  ⟨rfl, rfl, rfl⟩

/-- C2: in every single processBlock call, the pending latency not
absorbed by the capped zero lead (the cap being produced * channelCount
samples) is appended as trailing zeros to the same output block, and the
pending counter is zero after every processBlock call. -/
theorem processBlock_flushes_pending {σ : Type} (E : EngineOps σ)
    (p : LatencyCompensatedProcessor σ) (input : List ℚ) (frames : Nat) :
    (LatencyCompensatedProcessor.processBlock E p input
        frames).2.2.pendingLatencySamples = 0 ∧
    (LatencyCompensatedProcessor.processBlock E p input frames).2.1 =
      List.replicate
          (min p.pendingLatencySamples
            ((E.process p.processor input frames).1 * csize p.channelCount)) 0 ++
        (E.process p.processor input frames).2.1 ++
        List.replicate
          (p.pendingLatencySamples -
            min p.pendingLatencySamples
              ((E.process p.processor input frames).1 * csize p.channelCount)) 0 := by
  rw [processBlock_eq]
  exact ⟨rfl, rfl⟩

/-- C3: over any sequence of processBlock calls with no intervening
control update, the zero samples injected are exactly the pending value
the sequence started with (the value recorded at the last control update
or at construction), all of it in the first call, and every later call of
the sequence injects none; in particular the injected total equals that
pending value. -/
theorem injected_zeros_drained_in_first_block {σ : Type} (E : EngineOps σ)
    (p : LatencyCompensatedProcessor σ) (b : List ℚ × Nat)
    (bs : List (List ℚ × Nat)) :
    LatencyCompensatedProcessor.injectedZerosList E p (b :: bs) =
        p.pendingLatencySamples :: List.replicate bs.length 0 ∧
    (LatencyCompensatedProcessor.injectedZerosList E p (b :: bs)).sum =
        p.pendingLatencySamples := by
  have hmain : LatencyCompensatedProcessor.injectedZerosList E p (b :: bs) =
      p.pendingLatencySamples :: List.replicate bs.length 0 := by
    unfold LatencyCompensatedProcessor.injectedZerosList
    rw [injectedZeros_eq,
      injectedZerosList_of_drained E bs _ (by rw [processBlock_eq])]
  refine ⟨hmain, ?_⟩
  rw [hmain]
  simp [List.sum_replicate]

/-- C4: with channel count 2 and manual latency 0, if the engine reports
latency 256 frames after the control update then the update sets the
pending counter to 256, and the first processBlock call with 512 input
frames returns an output beginning with at most 512 zero samples (in fact
at most 256) followed by all of the produced samples of that call, and
then the flush of the remainder. -/
theorem scenario_engine_latency_256 {σ : Type} (E : EngineOps σ)
    (q : LatencyCompensatedProcessor σ) (c : Controls) (input : List ℚ)
    (hch : q.channelCount = 2) (hc : c.manualLatencySamples = 0)
    (hlat : E.getLatencySamples
      (LatencyCompensatedProcessor.updateControls E q c).processor = 256) :
    (LatencyCompensatedProcessor.updateControls E q c).pendingLatencySamples = 256 ∧
    min 256 ((E.process (LatencyCompensatedProcessor.updateControls E q c).processor
        input 512).1 * 2) ≤ 512 ∧
    (LatencyCompensatedProcessor.processBlock E
        (LatencyCompensatedProcessor.updateControls E q c) input 512).2.1 =
      List.replicate
          (min 256 ((E.process
            (LatencyCompensatedProcessor.updateControls E q c).processor
            input 512).1 * 2)) 0 ++
        (E.process (LatencyCompensatedProcessor.updateControls E q c).processor
          input 512).2.1 ++
        List.replicate
          (256 - min 256 ((E.process
            (LatencyCompensatedProcessor.updateControls E q c).processor
            input 512).1 * 2)) 0 := by
  have hpend : (LatencyCompensatedProcessor.updateControls E q c).pendingLatencySamples
      = 256 := by
    show E.getLatencySamples
        (LatencyCompensatedProcessor.updateControls E q c).processor +
      (max 0 c.manualLatencySamples).toNat = 256
    rw [hlat, hc]
    rfl
  have hcs : csize (LatencyCompensatedProcessor.updateControls E q c).channelCount
      = 2 := by
    show csize q.channelCount = 2
    rw [hch]
    decide
  refine ⟨hpend, le_trans (Nat.min_le_left _ _) (by norm_num), ?_⟩
  rw [processBlock_eq, hpend, hcs]

/-- C4 witness: a concrete engine over a unit state reporting latency 256,
a concrete stereo processor state and default controls satisfy the
hypotheses, and the update indeed sets the pending counter to 256. -/
theorem scenario_engine_latency_256_witness :
    ({ processor := (), controls := {}, pendingLatencySamples := 0,
        channelCount := 2 } : LatencyCompensatedProcessor Unit).channelCount = 2 ∧
    ({} : Controls).manualLatencySamples = 0 ∧
    fixedLatencyEngine.getLatencySamples
      (LatencyCompensatedProcessor.updateControls fixedLatencyEngine
        { processor := (), controls := {}, pendingLatencySamples := 0,
          channelCount := 2 } {}).processor = 256 ∧
    (LatencyCompensatedProcessor.updateControls fixedLatencyEngine
      { processor := (), controls := {}, pendingLatencySamples := 0,
        channelCount := 2 } {}).pendingLatencySamples = 256 :=
  ⟨rfl, rfl, rfl,
    (scenario_engine_latency_256 fixedLatencyEngine
      { processor := (), controls := {}, pendingLatencySamples := 0,
        channelCount := 2 } {} [] rfl rfl rfl).1⟩

/-- C5 (code_bug evidence): neither constructor validates its arguments.
Constructing the latency-compensated processor with channel count 0
succeeds silently and yields an ordinary state (pending counter 480 from
the placeholder latency at 48 kHz), and constructing the stretch/pitch
processor with sample rate 0 or channel count -2 also succeeds silently;
there is no failure path at construction in the source. -/
theorem construction_tolerates_invalid_arguments :
    (LatencyCompensatedProcessor.create 48000 0).pendingLatencySamples = 480 ∧
    (LatencyCompensatedProcessor.create 48000 0).channelCount = 0 ∧
    (TimeStretchPitchProcessor.create 0 2 {}).simulatedLatencySamples = 0 ∧
    (TimeStretchPitchProcessor.create 48000 (-2) {}).channelCount = -2 := by
  refine ⟨?_, rfl, ?_, rfl⟩
  · show simulatedLatency 48000 + (max 0 (0 : Int)).toNat = 480
    rw [simulatedLatency_48000]
    decide
  · show simulatedLatency 0 = 0
    exact simulatedLatency_zero

/-- C6: updateControls is idempotent for the pending counter: a second
update with identical controls leaves the counter at the same fully
re-primed value as the first, never doubled or accumulated. -/
theorem updateControls_idempotent_pending
    (p : LatencyCompensatedProcessor TimeStretchPitchProcessor)
    (c : Controls) :
    (LatencyCompensatedProcessor.updateControls passthroughOps
        (LatencyCompensatedProcessor.updateControls passthroughOps p c)
        c).pendingLatencySamples =
      (LatencyCompensatedProcessor.updateControls passthroughOps p
        c).pendingLatencySamples :=
  rfl

/-- C7: the passthrough process returns exactly the given frame count,
and when the input buffer holds exactly frames * channelCount samples the
output equals the input unchanged. -/
theorem passthrough_process_identity (p : TimeStretchPitchProcessor)
    (input : List ℚ) (frames : Nat) :
    (TimeStretchPitchProcessor.process p input frames).1 = frames ∧
    (input.length = frames * csize p.channelCount →
      (TimeStretchPitchProcessor.process p input frames).2 = input) := by
  refine ⟨rfl, fun h => ?_⟩
  simp [TimeStretchPitchProcessor.process, ← h]

/-- C7 witness: a stereo passthrough processor on a two-frame buffer
returns it unchanged. -/
theorem passthrough_process_identity_witness :
    ([1, 2, 3, 4] : List ℚ).length =
        2 * csize (TimeStretchPitchProcessor.create 48000 2 {}).channelCount ∧
    (TimeStretchPitchProcessor.process
      (TimeStretchPitchProcessor.create 48000 2 {}) [1, 2, 3, 4] 2).2 =
        [1, 2, 3, 4] :=
  ⟨by decide,
    (passthrough_process_identity (TimeStretchPitchProcessor.create 48000 2 {})
      [1, 2, 3, 4] 2).2 (by decide)⟩

/-- C8: describeEndpoints always returns exactly 4 descriptors and
controlEndpoints exactly 3, and in both lists each defaultValue is the
currently stored parameter or control value, not a fixed constant. -/
theorem endpoint_counts_and_defaults {σ : Type}
    (tp : TimeStretchPitchProcessor) (p : LatencyCompensatedProcessor σ) :
    (TimeStretchPitchProcessor.describeEndpoints tp).length = 4 ∧
    (LatencyCompensatedProcessor.controlEndpoints p).length = 3 ∧
    (TimeStretchPitchProcessor.describeEndpoints tp).map
        (fun e => e.defaultValue) =
      [ tp.parameters.tempoRatio, tp.parameters.pitchSemitones,
        tp.parameters.quality.formantPreservation,
        tp.parameters.quality.transientSensitivity ] ∧
    (LatencyCompensatedProcessor.controlEndpoints p).map
        (fun e => e.defaultValue) =
      [ p.controls.tempoRatio, p.controls.pitchSemitones,
        (p.controls.manualLatencySamples : ℚ) ] :=
  ⟨rfl, rfl, rfl, rfl⟩

/-- C9: the output of a processBlock call is a freshly assembled buffer
whose length is the pending count before the call plus
produced * channelCount, provided the inner processor produced
produced * channelCount samples (no produced sample is dropped and the
whole pending count materializes as zeros in this block); and a
zero-frame input on the passthrough build yields exactly the pending
count of zero samples with a returned frame count of 0. -/
theorem processBlock_output_length {σ : Type} (E : EngineOps σ)
    (p : LatencyCompensatedProcessor σ) (input : List ℚ) (frames : Nat)
    (hlen : (E.process p.processor input frames).2.1.length =
      (E.process p.processor input frames).1 * csize p.channelCount) :
    (LatencyCompensatedProcessor.processBlock E p input frames).2.1.length =
        p.pendingLatencySamples +
          (E.process p.processor input frames).1 * csize p.channelCount ∧
    ∀ (q : LatencyCompensatedProcessor TimeStretchPitchProcessor)
        (inp : List ℚ),
      LatencyCompensatedProcessor.processBlock passthroughOps q inp 0 =
        (0, List.replicate q.pendingLatencySamples 0,
         { q with pendingLatencySamples := 0 }) := by
  constructor
  · rw [processBlock_eq]
    simp only [List.length_append, List.length_replicate, hlen]
    omega
  · intro q inp
    rw [processBlock_eq]
    simp [passthroughOps, TimeStretchPitchProcessor.process]

/-- C9 witness: a stereo passthrough state on a two-frame buffer produced
exactly frames * channelCount samples, and the output length is the
pending count plus that. -/
theorem processBlock_output_length_witness :
    (passthroughOps.process
        (LatencyCompensatedProcessor.create 48000 2).processor
        [1, 2, 3, 4] 2).2.1.length =
      (passthroughOps.process
          (LatencyCompensatedProcessor.create 48000 2).processor
          [1, 2, 3, 4] 2).1 *
        csize (LatencyCompensatedProcessor.create 48000 2).channelCount ∧
    (LatencyCompensatedProcessor.processBlock passthroughOps
        (LatencyCompensatedProcessor.create 48000 2) [1, 2, 3, 4] 2).2.1.length =
      (LatencyCompensatedProcessor.create 48000 2).pendingLatencySamples +
        (passthroughOps.process
            (LatencyCompensatedProcessor.create 48000 2).processor
            [1, 2, 3, 4] 2).1 *
          csize (LatencyCompensatedProcessor.create 48000 2).channelCount :=
  ⟨by decide,
    (processBlock_output_length passthroughOps
      (LatencyCompensatedProcessor.create 48000 2) [1, 2, 3, 4] 2
      (by decide)).1⟩

/-- C10: every updateControls call stores in the inner processor exactly
the forwarded tempo and pitch together with the value-initialized default
StretchQuality (formantPreservation 1/2, transientSensitivity 1/2,
highQuality true), discarding any quality previously stored through a
direct setParameters call. -/
theorem updateControls_overwrites_quality
    (p : LatencyCompensatedProcessor TimeStretchPitchProcessor)
    (c : Controls) (previous : Parameters) :
    (LatencyCompensatedProcessor.updateControls passthroughOps p
        c).processor.getParameters =
      { tempoRatio := c.tempoRatio, pitchSemitones := c.pitchSemitones,
        quality := { formantPreservation := 1 / 2,
                     transientSensitivity := 1 / 2,
                     highQuality := true } } ∧
    (LatencyCompensatedProcessor.updateControls passthroughOps
        { p with processor := p.processor.setParameters previous }
        c).processor.getParameters =
      (LatencyCompensatedProcessor.updateControls passthroughOps p
        c).processor.getParameters :=
  ⟨rfl, rfl⟩

end deejay
